import Mathlib

/-!
Shallow embedding of `autogen/agentchat/contrib/multimodal_web_surfer/multimodal_web_surfer.py`.

The module implements `MultimodalWebSurferAgent`, a single-threaded agent whose
per-turn entry point is `generate_surfer_reply`.  External collaborators (the
Playwright browser, the LLM client, the markdown converter, the token counter)
are modelled as oracle inputs collected in an `Env` record; the straight-line
orchestration code itself is translated faithfully, and each turn additionally
produces a trace of `Event`s recording the externally visible operations in the
order the Python code performs them.
-/

/-- Python whitespace characters recognised by `str.strip()` and `\s` (ASCII range). -/
def pyIsSpace (c : Char) : Bool :=
  c == ' ' || c == '\t' || c == '\n' || c == '\r' || c == '\x0b' || c == '\x0c'

/-- Python `str.strip()`: drop leading and trailing whitespace. -/
def pyStrip (s : String) : String :=
  String.mk (((s.toList.dropWhile pyIsSpace).reverse.dropWhile pyIsSpace).reverse)

/-- Python `str(x)` applied to the result of `dict.get`: a present string is kept,
an absent value (`None`) prints as `"None"`. -/
def pyStr (o : Option String) : String :=
  match o with
  | some s => s
  | none => "None"

/-- Characters matched by `[\r\n]` in `re.split(r"([\r\n]+)", ...)`. -/
def isNlChar (c : Char) : Bool :=
  c == '\r' || c == '\n'

/-- Worker for `pySplitNl`: accumulates the current maximal run (reversed) and its
character class, emitting alternating text/separator pieces exactly as `re.split`
with a capturing group does (including empty leading and trailing text pieces). -/
def splitNlAux : List Char → List Char → Bool → List String
  | [], cur, curNl =>
      if curNl then [String.mk cur.reverse, ""] else [String.mk cur.reverse]
  | c :: cs, cur, curNl =>
      if isNlChar c == curNl then splitNlAux cs (c :: cur) curNl
      else String.mk cur.reverse :: splitNlAux cs [c] (isNlChar c)

/-- Python `re.split(r"([\r\n]+)", s)`: splits on maximal runs of CR/LF characters,
keeping the separator runs as list elements (capturing group). -/
def pySplitNl (s : String) : List String :=
  splitNlAux s.toList [] false

/-- Worker for `pySubWs`: `n` counts remaining replacements, the flag records that
we are inside a whitespace run that has already been replaced by a single space. -/
def subWsAux : Nat → Bool → List Char → List Char
  | _, _, [] => []
  | n, skipping, c :: cs =>
      if pyIsSpace c then
        if skipping then subWsAux n true cs
        else if n == 0 then c :: subWsAux 0 false cs
        else ' ' :: subWsAux (n - 1) true cs
      else c :: subWsAux n false cs

/-- `re.sub(r"\s+", " ", s, n)`: replace the first `n` maximal whitespace runs by a
single space each.  The Python call in `generate_surfer_reply` passes `re.DOTALL`
(= 16) in the `count` position, so only the first 16 runs are collapsed. -/
def pySubWs (n : Nat) (s : String) : String :=
  String.mk (subWsAux n false s.toList)

/-- UTF-8 encoding of a single character, as the list of byte values,
mirroring how `urllib.parse.quote` percent-encodes per UTF-8 byte. -/
def utf8Bytes (c : Char) : List Nat :=
  let n := c.toNat
  if n < 128 then [n]
  else if n < 2048 then [192 + n / 64, 128 + n % 64]
  else if n < 65536 then [224 + n / 4096, 128 + n / 64 % 64, 128 + n % 64]
  else [240 + n / 262144, 128 + n / 4096 % 64, 128 + n / 64 % 64, 128 + n % 64]

/-- Uppercase hexadecimal digit, as used by `urllib.parse.quote`. -/
def hexUpper (n : Nat) : Char :=
  if n < 10 then Char.ofNat (48 + n) else Char.ofNat (55 + n)

/-- `urllib.parse`'s ALWAYS_SAFE byte set: ASCII letters, digits, and `_.-~`. -/
def alwaysSafeByte (n : Nat) : Bool :=
  (decide (65 ≤ n) && decide (n ≤ 90)) || (decide (97 ≤ n) && decide (n ≤ 122)) ||
  (decide (48 ≤ n) && decide (n ≤ 57)) || n == 95 || n == 46 || n == 45 || n == 126

/-- Python `urllib.parse.quote_plus(s)` with default arguments: spaces become `+`,
always-safe bytes pass through, every other UTF-8 byte becomes `%XX` uppercase. -/
def quote_plus (s : String) : String :=
  String.join ((s.toList.flatMap utf8Bytes).map (fun n =>
    if n == 32 then "+"
    else if alwaysSafeByte n then String.mk [Char.ofNat n]
    else String.mk ['%', hexUpper (n / 16), hexUpper (n % 16)]))

/-- `charsStart ps cs` holds when `ps` is an initial segment of `cs`
(list-level `str.startswith`). -/
def charsStart : List Char → List Char → Bool
  | [], _ => true
  | _ :: _, [] => false
  | p :: ps, c :: cs => (p == c) && charsStart ps cs

/-- Python `s.startswith(pat)`. -/
def strStartsWith (s pat : String) : Bool :=
  charsStart pat.toList s.toList

/-- Python `c in s` for a one-character needle. -/
def strContainsChar (s : String) (c : Char) : Bool :=
  s.toList.any (fun x => x == c)

/-- The Bing search URL built by the `visit_url` and `web_search` branches of
`generate_surfer_reply`. -/
def bingSearch (q : String) : String :=
  "https://www.bing.com/search?q=" ++ quote_plus q ++ "&FORM=QBLH"

/-- URL normalisation performed by the `visit_url` branch of
`generate_surfer_reply` (lines 398-409): known protocols pass through, an
argument containing a space becomes a Bing search, anything else gets an
`https://` protocol prepended. -/
def resolveVisitUrl (url : String) : String :=
  if strStartsWith url "https://" || strStartsWith url "http://" ||
     strStartsWith url "file://" || strStartsWith url "about:" then url
  else if strContainsChar url ' ' then bingSearch url
  else "https://" ++ url

/-- The visual viewport as reported by `MultimodalWebSurfer.getVisualViewport()`:
the three quantities the agent reads from it. -/
structure Viewport where
  pageTop : Nat
  height : Nat
  scrollHeight : Nat
deriving DecidableEq, Repr

/-- `int(viewport["height"] * 100 / viewport["scrollHeight"])`. -/
def percentVisible (v : Viewport) : Nat :=
  v.height * 100 / v.scrollHeight

/-- `int(viewport["pageTop"] * 100 / viewport["scrollHeight"])`. -/
def percentScrolled (v : Viewport) : Nat :=
  v.pageTop * 100 / v.scrollHeight

/-- The position description computed at lines 489-497 of
`generate_surfer_reply`. -/
def positionText (v : Viewport) : String :=
  if percentScrolled v < 1 then "at the top of the page"
  else if percentScrolled v + percentVisible v ≥ 99 then "at the bottom of the page"
  else toString (percentScrolled v) ++ "% down from the top of the page"

/-- `VIEWPORT_HEIGHT` constant from the module (line 47). -/
def VIEWPORT_HEIGHT : Nat := 900

/-- Names of the tools the language model may select, as they appear in the
dispatch of `generate_surfer_reply`.  The `tool_definitions` module itself is
not part of the provided sources; the names here are the strings the dispatch
branches test, matching the spec's enumerated actions. -/
inductive ToolName
  | visit_url
  | history_back
  | web_search
  | page_up
  | page_down
  | click
  | input_text
  | scroll_element_up
  | scroll_element_down
  | answer_question
  | summarize_page
deriving DecidableEq, Repr

/-- The tool list offered to the model, built at lines 305-364 of
`generate_surfer_reply`: a fixed base list, then `web_search` if the navigation
allow list admits Bing, `page_up`/`page_down` depending on the viewport, and the
element scroll tools when a visible element is vertically scrollable. -/
def availableTools (allowBing : Bool) (v : Viewport) (hasScrollable : Bool) : List ToolName :=
  [ToolName.visit_url, ToolName.history_back, ToolName.click, ToolName.input_text,
   ToolName.summarize_page, ToolName.answer_question]
  ++ (if allowBing then [ToolName.web_search] else [])
  ++ (if v.pageTop > 5 then [ToolName.page_up] else [])
  ++ (if v.pageTop + v.height + 5 < v.scrollHeight then [ToolName.page_down] else [])
  ++ (if hasScrollable then [ToolName.scroll_element_up, ToolName.scroll_element_down] else [])

/-- Scroll direction for `_scroll_id`. -/
inductive ScrollDir
  | up
  | down
deriving DecidableEq, Repr

/-- A direct call into the browser-automation library, as issued by the action
branches of `generate_surfer_reply` and the `_visit_page`/`_back`/`_page_up`/
`_page_down`/`_click_id`/`_fill_id`/`_scroll_id` helpers. -/
inductive BrowserCall
  | goto (url : String)
  | goBack
  | scrollBy (dy : Int)
  | clickElement (identifier : String)
  | fillElement (identifier : String) (value : String)
  | scrollElement (identifier : String) (dir : ScrollDir)
deriving DecidableEq, Repr

/-- Externally visible operations of one turn, in program order.  `screenshot`
carries the identifier of the image the live page yields at that moment;
`createCall` carries the tool list passed to `client.create` (`none` for the
inner call in `_summarize_page`, which passes no tools). -/
inductive Event
  | jsRects
  | jsViewport
  | jsFocused
  | screenshot (shotId : Nat)
  | createCall (tools : Option (List ToolName))
  | act (c : BrowserCall)
  | getMarkdown
  | waitLoad
deriving DecidableEq, Repr

/-- `Event.act` recogniser. -/
def isAct : Event → Bool
  | Event.act _ => true
  | _ => false

/-- `Event.createCall` recogniser. -/
def isCreate : Event → Bool
  | Event.createCall _ => true
  | _ => false

/-- State of the live browser page as observed through Playwright: its URL and
title, the element ids reachable via `[__elementId=...]` locators, the id ↦
aria-name map extracted by `_get_interactive_rects` (an entry is present only
when the element has a non-`None` aria-name), the markdown conversion of its
HTML, its visual viewport, and the identifier of the screenshot it yields. -/
structure Page where
  url : String
  title : String
  elements : List String
  rects : List (String × String)
  markdown : String
  viewport : Viewport
  shot : Nat

/-- Arguments of a tool call after `json.loads`, field per field as the dispatch
reads them with `args.get(...)`; `none` models an absent key (`None`). -/
structure Args where
  url : Option String
  query : Option String
  target_id : Option String
  input_field_id : Option String
  text_value : Option String
  question : Option String
deriving DecidableEq, Repr

instance {ε α : Type} [DecidableEq ε] [DecidableEq α] : DecidableEq (Except ε α) := fun a b =>
  match a, b with
  | Except.ok x, Except.ok y =>
      if h : x = y then Decidable.isTrue (by rw [h]) else Decidable.isFalse (by simp [h])
  | Except.ok _, Except.error _ => Decidable.isFalse (by simp)
  | Except.error _, Except.ok _ => Decidable.isFalse (by simp)
  | Except.error x, Except.error y =>
      if h : x = y then Decidable.isTrue (by rw [h]) else Decidable.isFalse (by simp [h])

/-- One entry of `message.tool_calls`.  `arguments` is the outcome of
`json.loads` on the arguments string: `Except.error m` models a
`json.JSONDecodeError` (a `ValueError` subclass) with message `m`. -/
structure ToolCall where
  name : String
  arguments : Except String Args
deriving DecidableEq, Repr

/-- The chat-completion response message used by `generate_surfer_reply`. -/
structure ModelResponse where
  content : String
  tool_calls : List ToolCall
deriving DecidableEq, Repr

/-- Oracle inputs of one turn: the page observed while building the prompt, the
page observed after the action and `wait_for_load_state`, the allow-list verdict
for Bing, whether a visible element is scrollable, the model's response, the
text the inner summarization call returns, and the external `count_token`
function. -/
structure Env where
  pageBefore : Page
  pageAfter : Page
  allowBing : Bool
  hasScrollable : Bool
  response : ModelResponse
  summaryText : String
  countToken : String → Nat

/-- Python exceptions other than `ValueError` that the dispatch can raise and
`generate_surfer_reply` does not catch: `AttributeError` from
`None.startswith`, `TypeError` from `quote_plus(None)`. -/
inductive PyErr
  | attributeError
  | typeError
deriving DecidableEq, Repr

/-- Outcome of one dispatch branch: a caught `ValueError` with its message, an
uncaught exception, or success. -/
inductive DispatchErr
  | valueError (msg : String)
  | py (e : PyErr)
deriving DecidableEq, Repr

/-- The value returned by `generate_surfer_reply` (second component of the
`(True, ...)` pair): either `str(e)` of a caught `ValueError`, or the final
multimodal message with its text content and the screenshot it embeds. -/
inductive Reply
  | text (msg : String)
  | mm (content : String) (shot : Nat)
deriving DecidableEq, Repr

/-- `_target_name(target, rects)` (lines 272-277): look up the aria-name of an
element id; a missing or empty name is `None`, otherwise the name is stripped. -/
def target_name (t : String) (rects : List (String × String)) : Option String :=
  match (rects.find? (fun p => p.1 == t)).map Prod.snd with
  | some n => if n == "" then none else some (pyStrip n)
  | none => none

/-- `_click_id` (lines 606-623): the locator wait raises a `ValueError`
("No such element.") when no element carries the id; otherwise the element is
clicked (a popup, if any, replaces the current page — absorbed into the
post-action page oracle). -/
def click_id (page : Page) (identifier : String) : Except String (List Event) :=
  if page.elements.contains identifier then Except.ok [Event.act (BrowserCall.clickElement identifier)]
  else Except.error "No such element."

/-- `_fill_id` (lines 625-637): same existence check as `_click_id`, then focus,
fill and Enter — modelled as one `fillElement` call. -/
def fill_id (page : Page) (identifier value : String) : Except String (List Event) :=
  if page.elements.contains identifier then Except.ok [Event.act (BrowserCall.fillElement identifier value)]
  else Except.error "No such element."

/-- Truncation loop of `_summarize_page` (lines 659-664): accumulate the
`re.split` pieces of the page markdown in order, stopping before the first piece
whose inclusion would leave fewer than 1024 tokens of headroom. -/
def truncAux (ct : String → Nat) (lim : Nat) : String → List String → String
  | buf, [] => buf
  | buf, l :: rest =>
      if ct (buf ++ l) + 1024 > lim then buf else truncAux ct lim (buf ++ l) rest

/-- The buffer `_summarize_page` builds from the page markdown. -/
def truncateBuffer (ct : String → Nat) (lim : Nat) (md : String) : String :=
  truncAux ct lim "" (pySplitNl md)

/-- `_summarize_page` (lines 656-706): build the truncated buffer; if it strips
to nothing return "Nothing to summarize." without contacting the model;
otherwise take a screenshot of the current page and issue the inner
`client.create` call (which passes no tools), returning the model's summary.
The page-title `try/except` and image scaling have no observable effect here. -/
def summarize_page_fn (ct : String → Nat) (tokenLimit : Nat) (page : Page)
    (question : Option String) (summaryText : String) : String × List Event :=
  if pyStrip (truncateBuffer ct tokenLimit page.markdown) == "" then
    ("Nothing to summarize.", [Event.getMarkdown])
  else
    (summaryText, [Event.getMarkdown, Event.screenshot page.shot, Event.createCall none])

/-- The tool names tested by the dispatch chain of `generate_surfer_reply`
(lines 398-478), in source order. -/
def knownToolNames : List String :=
  ["visit_url", "history_back", "web_search", "page_up", "page_down", "click",
   "input_text", "scroll_element_up", "scroll_element_down", "answer_question",
   "summarize_page"]

/-- The dispatch chain of `generate_surfer_reply` (lines 398-478): for the
selected tool name, compute the action description and perform the browser
call(s), branch by branch as in the source.  `DispatchErr.valueError` is what
the surrounding `except ValueError` catches. -/
def performTool (env : Env) (name : String) (args : Args) : Except DispatchErr (String × List Event) :=
  if name == "visit_url" then
    match args.url with
    | none => Except.error (DispatchErr.py PyErr.attributeError)
    | some url =>
        Except.ok ("I typed '" ++ url ++ "' into the browser address bar.",
          [Event.act (BrowserCall.goto (resolveVisitUrl url))])
  else if name == "history_back" then
    Except.ok ("I clicked the browser back button.", [Event.act BrowserCall.goBack])
  else if name == "web_search" then
    match args.query with
    | none => Except.error (DispatchErr.py PyErr.typeError)
    | some query =>
        Except.ok ("I typed '" ++ query ++ "' into the browser search bar.",
          [Event.act (BrowserCall.goto (bingSearch query))])
  else if name == "page_up" then
    Except.ok ("I scrolled up one page in the browser.",
      [Event.act (BrowserCall.scrollBy (-((VIEWPORT_HEIGHT : Int) - 50)))])
  else if name == "page_down" then
    Except.ok ("I scrolled down one page in the browser.",
      [Event.act (BrowserCall.scrollBy ((VIEWPORT_HEIGHT : Int) - 50))])
  else if name == "click" then
    let tid := pyStr args.target_id
    let desc := match target_name tid env.pageBefore.rects with
      | some n => "I clicked '" ++ n ++ "'."
      | none => "I clicked the control."
    match click_id env.pageBefore tid with
    | Except.ok evs => Except.ok (desc, evs)
    | Except.error m => Except.error (DispatchErr.valueError m)
  else if name == "input_text" then
    let fid := pyStr args.input_field_id
    let tv := pyStr args.text_value
    let desc := match target_name fid env.pageBefore.rects with
      | some n => "I typed '" ++ tv ++ "' into '" ++ n ++ "'."
      | none => "I input '" ++ tv ++ "'."
    match fill_id env.pageBefore fid tv with
    | Except.ok evs => Except.ok (desc, evs)
    | Except.error m => Except.error (DispatchErr.valueError m)
  else if name == "scroll_element_up" then
    let tid := pyStr args.target_id
    let desc := match target_name tid env.pageBefore.rects with
      | some n => "I scrolled '" ++ n ++ "' up."
      | none => "I scrolled the control up."
    Except.ok (desc, [Event.act (BrowserCall.scrollElement tid ScrollDir.up)])
  else if name == "scroll_element_down" then
    let tid := pyStr args.target_id
    let desc := match target_name tid env.pageBefore.rects with
      | some n => "I scrolled '" ++ n ++ "' down."
      | none => "I scrolled the control down."
    Except.ok (desc, [Event.act (BrowserCall.scrollElement tid ScrollDir.down)])
  else if name == "answer_question" then
    Except.ok (summarize_page_fn env.countToken 100000 env.pageBefore
      (some (pyStr args.question)) env.summaryText)
  else if name == "summarize_page" then
    Except.ok (summarize_page_fn env.countToken 100000 env.pageBefore none env.summaryText)
  else
    Except.error (DispatchErr.valueError ("Unknown tool '" ++ name ++ "'"))

/-- Events preceding the dispatch (lines 298-387): interactive rects, viewport,
the set-of-mark screenshot, the focus probe, and the outer `client.create` call
with the turn's tool list. -/
def preTrace (env : Env) : List Event :=
  [Event.jsRects, Event.jsViewport, Event.screenshot env.pageBefore.shot, Event.jsFocused,
   Event.createCall (some (availableTools env.allowBing env.pageBefore.viewport env.hasScrollable))]

/-- The text of the returned multimodal message (lines 515-523): content, action
description and the screenshot caption joined, whitespace-collapsed with
`re.sub(r"\s+", " ", ..., re.DOTALL)` — `re.DOTALL` (= 16) lands in the `count`
parameter — and stripped.  Title, URL and viewport are read from the
post-action page. -/
def finalText (env : Env) (content desc : String) : String :=
  pyStrip (pySubWs 16 (content ++ "\n\n" ++ desc ++ "\n\nHere is a screenshot of ["
    ++ env.pageAfter.title ++ "](" ++ env.pageAfter.url ++ "). The viewport shows "
    ++ toString (percentVisible env.pageAfter.viewport)
    ++ "% of the webpage, and is positioned " ++ positionText env.pageAfter.viewport ++ "."))

/-- Events following a successful (or tool-free) dispatch (lines 485-523):
`wait_for_load_state`, re-reading the viewport, and the screenshot embedded in
the returned message. -/
def finishTrace (env : Env) : List Event :=
  [Event.waitLoad, Event.jsViewport, Event.screenshot env.pageAfter.shot]

/-- `generate_surfer_reply` (lines 279-523).  Returns the `(True, reply)` pair
(or an uncaught exception) together with the trace of external operations.
Only the first entry of `message.tool_calls` is examined; a `ValueError`
(including a `json.JSONDecodeError` from parsing the arguments) is caught and
returned as `(True, str(e))` without reaching the post-action section. -/
def generate_surfer_reply (env : Env) : Except PyErr (Bool × Reply) × List Event :=
  match env.response.tool_calls.head? with
  | none =>
      (Except.ok (true, Reply.mm (finalText env env.response.content "") env.pageAfter.shot),
       preTrace env ++ finishTrace env)
  | some tc =>
      match tc.arguments with
      | Except.error m => (Except.ok (true, Reply.text m), preTrace env)
      | Except.ok args =>
          match performTool env tc.name args with
          | Except.error (DispatchErr.valueError m) =>
              (Except.ok (true, Reply.text m), preTrace env)
          | Except.error (DispatchErr.py e) => (Except.error e, preTrace env)
          | Except.ok (desc, evs) =>
              (Except.ok (true, Reply.mm (finalText env env.response.content desc) env.pageAfter.shot),
               preTrace env ++ evs ++ finishTrace env)

/-- Kinds of operation wrapped by the `try/except` statements of the module. -/
inductive WrappedOp
  | jsEval
  | moduleImport
  | requestLogging
  | toolDispatch
  | locatorWait
  | popupWait
  | pageTitleRead
deriving DecidableEq, Repr

/-- One `try/except` site of the module. -/
structure TrySite where
  location : String
  wraps : WrappedOp
deriving DecidableEq, Repr

/-- The ten `try/except` statements of the module, in source order:
the `termcolor` import fallback (lines 35-40), the request-logging guard in
`__init__` (194-219), the `except ValueError` around the tool dispatch in
`generate_surfer_reply` (391-483), the page-script evaluation guards in
`_get_interactive_rects`/`_get_visual_viewport`/`_get_focused_rect_id`
(557-561, 565-569, 573-577), the locator existence waits in `_click_id` (610-613)
and `_fill_id` (629-632), the popup wait in `_click_id` (617-623), and the
page-title fallback in `_summarize_page` (671-674). -/
def moduleTrySites : List TrySite :=
  [⟨"module import of termcolor", WrappedOp.moduleImport⟩,
   ⟨"__init__ log_request", WrappedOp.requestLogging⟩,
   ⟨"generate_surfer_reply tool dispatch", WrappedOp.toolDispatch⟩,
   ⟨"_get_interactive_rects page_script evaluation", WrappedOp.jsEval⟩,
   ⟨"_get_visual_viewport page_script evaluation", WrappedOp.jsEval⟩,
   ⟨"_get_focused_rect_id page_script evaluation", WrappedOp.jsEval⟩,
   ⟨"_click_id locator wait_for", WrappedOp.locatorWait⟩,
   ⟨"_click_id expect_event popup", WrappedOp.popupWait⟩,
   ⟨"_fill_id locator wait_for", WrappedOp.locatorWait⟩,
   ⟨"_summarize_page page title", WrappedOp.pageTitleRead⟩]

/-- Concatenation of a list of strings (pieces of the split page markdown). -/
def strJoin : List String → String
  | [] => ""
  | s :: rest => s ++ strJoin rest

/-- The condition under which a parsed dispatch raises a caught `ValueError`:
`click`/`input_text` target a missing element id, or the tool name is outside
the dispatch table; `some` carries `str(e)`. -/
def dispatchValueError (env : Env) (name : String) (args : Args) : Option String :=
  if name == "click" && !(env.pageBefore.elements.contains (pyStr args.target_id)) then
    some "No such element."
  else if name == "input_text" && !(env.pageBefore.elements.contains (pyStr args.input_field_id)) then
    some "No such element."
  else if !(knownToolNames.contains name) then
    some ("Unknown tool '" ++ name ++ "'")
  else none

/-- The condition under which a turn returns a caught `ValueError`:
the arguments string fails JSON parsing, `click`/`input_text` target a missing
element id, or the tool name is outside the dispatch table. -/
def valueErrorOutcome (env : Env) : Option String :=
  match env.response.tool_calls.head? with
  | none => none
  | some tc =>
      match tc.arguments with
      | Except.error m => some m
      | Except.ok args => dispatchValueError env tc.name args

/-- The condition under which the inner summarization `client.create` call is
made: the first tool call parses, names `answer_question` or `summarize_page`,
and the truncated page markdown is non-empty after stripping. -/
def summarizeToolSelected (env : Env) : Bool :=
  match env.response.tool_calls.head? with
  | none => false
  | some tc =>
      match tc.arguments with
      | Except.error _ => false
      | Except.ok _ =>
          (tc.name == "answer_question" || tc.name == "summarize_page")
          && !(pyStrip (truncateBuffer env.countToken 100000 env.pageBefore.markdown) == "")

/-- Empty tool-call arguments: `json.loads` succeeded but no key is present. -/
def emptyArgs : Args := ⟨none, none, none, none, none, none⟩

/-- A small concrete page used by concrete turn evaluations. -/
def pgC1 : Page := ⟨"https://x/", "t", [], [], "hello", ⟨0, 900, 900⟩, 0⟩

/-- A concrete turn in which the model selects `summarize_page` on a page with
non-empty markdown. -/
def envC1 : Env :=
  ⟨pgC1, pgC1, true, false, ⟨"", [⟨"summarize_page", Except.ok emptyArgs⟩]⟩, "A summary.",
   String.length⟩

/-- A concrete page with one interactive element (id "5"). -/
def pgC9 : Page := ⟨"https://x/", "t", ["5"], [], "m", ⟨0, 900, 900⟩, 0⟩

/-- A concrete turn in which the model selects `click` but its arguments string
is not valid JSON: `json.loads` raises `json.JSONDecodeError`, a `ValueError`
subclass, with the message below. -/
def envC9 : Env :=
  ⟨pgC9, pgC9, true, false,
   ⟨"", [⟨"click", Except.error "Expecting value: line 1 column 1 (char 0)"⟩]⟩, "s",
   String.length⟩

/-- A concrete page whose element "12" is a link named "Search". -/
def pgC5a : Page := ⟨"https://x/", "t", ["12"], [("12", "Search")], "m", ⟨0, 900, 900⟩, 0⟩

/-- The page observed after clicking element "12". -/
def pgC5b : Page := ⟨"https://y/", "u", [], [], "m2", ⟨100, 900, 1800⟩, 1⟩

/-- A concrete turn in which the model selects a tool name outside the dispatch
table. -/
def envC9w : Env :=
  ⟨pgC9, pgC9, true, false, ⟨"", [⟨"frobnicate", Except.ok emptyArgs⟩]⟩, "s",
   String.length⟩

/-- A concrete turn in which the model clicks element "12". -/
def envC5 : Env :=
  ⟨pgC5a, pgC5b, true, false,
   ⟨"ok", [⟨"click", Except.ok ⟨none, none, some "12", none, none, none⟩⟩]⟩, "s",
   String.length⟩

/-- C7: the viewport state is the triple (pageTop, height, scrollHeight), and the
reported position text is derived from it as at lines 489-497: "at the top of
the page" when the integer scrolled percentage is below 1, "at the bottom of the
page" when the scrolled and visible integer percentages sum to at least 99, and
the integer scrolled percentage otherwise. -/
theorem c7_position_text (v : Viewport) (hpos : 0 < v.scrollHeight) :
    (v.pageTop * 100 / v.scrollHeight < 1 → positionText v = "at the top of the page") ∧
    (1 ≤ v.pageTop * 100 / v.scrollHeight →
      99 ≤ v.pageTop * 100 / v.scrollHeight + v.height * 100 / v.scrollHeight →
      positionText v = "at the bottom of the page") ∧
    (1 ≤ v.pageTop * 100 / v.scrollHeight →
      v.pageTop * 100 / v.scrollHeight + v.height * 100 / v.scrollHeight < 99 →
      positionText v = toString (v.pageTop * 100 / v.scrollHeight)
        ++ "% down from the top of the page") := by
  unfold positionText percentScrolled percentVisible
  refine ⟨?_, ?_, ?_⟩
  · intro h1
    rw [if_pos h1]
  · intro h1 h2
    rw [if_neg (by omega), if_pos (by omega)]
  · intro h1 h2
    rw [if_neg (by omega), if_neg (by omega)]

/-- Witness for C7 at concrete viewports: scrolled 33% (middle case) and a
bottom-of-page viewport. -/
theorem c7_position_text_witness :
    (0 < 900 ∧ positionText ⟨300, 100, 900⟩ = "33% down from the top of the page") ∧
    positionText ⟨500, 400, 900⟩ = "at the bottom of the page" := by
  refine ⟨⟨by decide, ?_⟩, ?_⟩
  · exact (c7_position_text ⟨300, 100, 900⟩ (by decide)).2.2 (by decide) (by decide)
  · exact (c7_position_text ⟨500, 400, 900⟩ (by decide)).2.1 (by decide) (by decide)

/-- C8: the `visit_url` argument is navigated to unchanged when it carries one of
the four known protocols, becomes a Bing search for its quote_plus encoding when
it contains a space, and is prefixed with "https://" otherwise. -/
theorem c8_visit_url_resolution (url : String) :
    ((strStartsWith url "https://" || strStartsWith url "http://" ||
      strStartsWith url "file://" || strStartsWith url "about:") = true →
      resolveVisitUrl url = url) ∧
    ((strStartsWith url "https://" || strStartsWith url "http://" ||
      strStartsWith url "file://" || strStartsWith url "about:") = false →
      strContainsChar url ' ' = true →
      resolveVisitUrl url = "https://www.bing.com/search?q=" ++ quote_plus url ++ "&FORM=QBLH") ∧
    ((strStartsWith url "https://" || strStartsWith url "http://" ||
      strStartsWith url "file://" || strStartsWith url "about:") = false →
      strContainsChar url ' ' = false →
      resolveVisitUrl url = "https://" ++ url) := by
  unfold resolveVisitUrl bingSearch
  refine ⟨?_, ?_, ?_⟩
  · intro h1
    rw [if_pos h1]
  · intro h1 h2
    rw [if_neg (by simp [h1]), if_pos h2]
  · intro h1 h2
    rw [if_neg (by simp [h1]), if_neg (by simp [h2])]

/-- Witness for C8 at concrete URLs, one per branch. -/
theorem c8_visit_url_resolution_witness :
    resolveVisitUrl "about:blank" = "about:blank" ∧
    resolveVisitUrl "queen of england" =
      "https://www.bing.com/search?q=queen+of+england&FORM=QBLH" ∧
    resolveVisitUrl "example.com" = "https://example.com" := by
  refine ⟨?_, ?_, ?_⟩
  · exact (c8_visit_url_resolution "about:blank").1 (by decide)
  · exact (c8_visit_url_resolution "queen of england").2.1 (by decide) (by decide)
  · exact (c8_visit_url_resolution "example.com").2.2 (by decide) (by decide)

/-- C2 counterexample: on a turn whose viewport is at the top of a short page and
whose allow list rejects Bing, neither `web_search` nor `page_up` is among the
offered tools, and the tool list differs from that of another turn — the set is
not fixed. -/
theorem c2_counterexample :
    ToolName.web_search ∉ availableTools false ⟨0, 10, 100⟩ false ∧
    ToolName.page_up ∉ availableTools false ⟨0, 10, 100⟩ false ∧
    availableTools false ⟨0, 10, 100⟩ false ≠ availableTools true ⟨0, 10, 100⟩ false := by
  decide

/-- C2 (amended): the six base tools are offered on every turn; `web_search` is
offered exactly when the allow list admits Bing, `page_up` exactly when
pageTop > 5, `page_down` exactly when pageTop + height + 5 < scrollHeight, and
the element scroll tools exactly when a visible element is scrollable. -/
theorem c2_tool_availability (allowBing : Bool) (v : Viewport) (hasScrollable : Bool) :
    ToolName.visit_url ∈ availableTools allowBing v hasScrollable ∧
    ToolName.history_back ∈ availableTools allowBing v hasScrollable ∧
    ToolName.click ∈ availableTools allowBing v hasScrollable ∧
    ToolName.input_text ∈ availableTools allowBing v hasScrollable ∧
    ToolName.summarize_page ∈ availableTools allowBing v hasScrollable ∧
    ToolName.answer_question ∈ availableTools allowBing v hasScrollable ∧
    (ToolName.web_search ∈ availableTools allowBing v hasScrollable ↔ allowBing = true) ∧
    (ToolName.page_up ∈ availableTools allowBing v hasScrollable ↔ v.pageTop > 5) ∧
    (ToolName.page_down ∈ availableTools allowBing v hasScrollable ↔
      v.pageTop + v.height + 5 < v.scrollHeight) ∧
    (ToolName.scroll_element_up ∈ availableTools allowBing v hasScrollable ↔
      hasScrollable = true) ∧
    (ToolName.scroll_element_down ∈ availableTools allowBing v hasScrollable ↔
      hasScrollable = true) := by
  unfold availableTools
  cases allowBing <;> cases hasScrollable <;>
    by_cases h1 : v.pageTop > 5 <;>
    by_cases h2 : v.pageTop + v.height + 5 < v.scrollHeight <;>
    simp [h1, h2]

/-- C6 counterexample: the `except ValueError` around the tool dispatch in
`generate_surfer_reply` is a try/except of the module that does not wrap a
JavaScript evaluation. -/
theorem c6_counterexample :
    TrySite.mk "generate_surfer_reply tool dispatch" WrappedOp.toolDispatch ∈ moduleTrySites ∧
    WrappedOp.toolDispatch ≠ WrappedOp.jsEval := by
  decide

/-- C6 (amended): of the module's ten try/except sites, exactly three wrap
optional JavaScript evaluations (the page-script guards in the three getters);
the remaining seven are the import fallback, the request-logging guard, the
ValueError catch around the tool dispatch, the locator existence waits in
`_click_id` and `_fill_id`, the popup wait in `_click_id`, and the page-title
fallback in `_summarize_page`. -/
theorem c6_try_sites :
    (moduleTrySites.filter (fun s => s.wraps == WrappedOp.jsEval)).map TrySite.location =
      ["_get_interactive_rects page_script evaluation",
       "_get_visual_viewport page_script evaluation",
       "_get_focused_rect_id page_script evaluation"] ∧
    (moduleTrySites.filter (fun s => !(s.wraps == WrappedOp.jsEval))).map TrySite.location =
      ["module import of termcolor", "__init__ log_request",
       "generate_surfer_reply tool dispatch", "_click_id locator wait_for",
       "_click_id expect_event popup", "_fill_id locator wait_for",
       "_summarize_page page title"] ∧
    moduleTrySites.length = 10 := by
  decide

/-- C4: the dispatch is total over the eleven enumerated tool names and maps each
to its browser call — `visit_url` navigates (to the resolved URL), `history_back`
goes back, `web_search` navigates to a Bing search URL, `page_up`/`page_down`
scroll the window by the viewport height minus 50, `click` clicks the identified
element, `input_text` fills the identified field, `scroll_element_up`/`down`
scroll the identified element, `answer_question`/`summarize_page` produce a page
summary — and any other name raises a ValueError. -/
theorem c4_dispatch_total (env : Env) (args : Args) :
    (∀ u, args.url = some u →
      performTool env "visit_url" args =
        Except.ok ("I typed '" ++ u ++ "' into the browser address bar.",
          [Event.act (BrowserCall.goto (resolveVisitUrl u))])) ∧
    (performTool env "history_back" args =
      Except.ok ("I clicked the browser back button.", [Event.act BrowserCall.goBack])) ∧
    (∀ q, args.query = some q →
      performTool env "web_search" args =
        Except.ok ("I typed '" ++ q ++ "' into the browser search bar.",
          [Event.act (BrowserCall.goto (bingSearch q))])) ∧
    (performTool env "page_up" args = Except.ok ("I scrolled up one page in the browser.",
      [Event.act (BrowserCall.scrollBy (-((VIEWPORT_HEIGHT : Int) - 50)))])) ∧
    (performTool env "page_down" args = Except.ok ("I scrolled down one page in the browser.",
      [Event.act (BrowserCall.scrollBy ((VIEWPORT_HEIGHT : Int) - 50))])) ∧
    (env.pageBefore.elements.contains (pyStr args.target_id) = true →
      ∃ d, performTool env "click" args =
        Except.ok (d, [Event.act (BrowserCall.clickElement (pyStr args.target_id))])) ∧
    (env.pageBefore.elements.contains (pyStr args.input_field_id) = true →
      ∃ d, performTool env "input_text" args =
        Except.ok (d, [Event.act (BrowserCall.fillElement (pyStr args.input_field_id)
          (pyStr args.text_value))])) ∧
    (∃ d, performTool env "scroll_element_up" args =
      Except.ok (d, [Event.act (BrowserCall.scrollElement (pyStr args.target_id) ScrollDir.up)])) ∧
    (∃ d, performTool env "scroll_element_down" args =
      Except.ok (d, [Event.act (BrowserCall.scrollElement (pyStr args.target_id) ScrollDir.down)])) ∧
    (performTool env "answer_question" args =
      Except.ok (summarize_page_fn env.countToken 100000 env.pageBefore
        (some (pyStr args.question)) env.summaryText)) ∧
    (performTool env "summarize_page" args =
      Except.ok (summarize_page_fn env.countToken 100000 env.pageBefore none env.summaryText)) ∧
    (∀ name, name ∉ knownToolNames →
      performTool env name args = Except.error (DispatchErr.valueError ("Unknown tool '" ++ name ++ "'"))) := by
  refine ⟨?_, ?_, ?_, ?_, ?_, ?_, ?_, ?_, ?_, ?_, ?_, ?_⟩
  · intro u hu
    simp [performTool, hu]
  · simp [performTool]
  · intro q hq
    simp [performTool, hq]
  · simp [performTool]
  · simp [performTool]
  · intro h
    have hmem : pyStr args.target_id ∈ env.pageBefore.elements := by simpa using h
    cases htn : target_name (pyStr args.target_id) env.pageBefore.rects with
    | some n => exact ⟨"I clicked '" ++ n ++ "'.", by simp [performTool, click_id, hmem, htn]⟩
    | none => exact ⟨"I clicked the control.", by simp [performTool, click_id, hmem, htn]⟩
  · intro h
    have hmem : pyStr args.input_field_id ∈ env.pageBefore.elements := by simpa using h
    cases htn : target_name (pyStr args.input_field_id) env.pageBefore.rects with
    | some n =>
        exact ⟨"I typed '" ++ pyStr args.text_value ++ "' into '" ++ n ++ "'.",
          by simp [performTool, fill_id, hmem, htn]⟩
    | none =>
        exact ⟨"I input '" ++ pyStr args.text_value ++ "'.",
          by simp [performTool, fill_id, hmem, htn]⟩
  · cases htn : target_name (pyStr args.target_id) env.pageBefore.rects with
    | some n => exact ⟨"I scrolled '" ++ n ++ "' up.", by simp [performTool, htn]⟩
    | none => exact ⟨"I scrolled the control up.", by simp [performTool, htn]⟩
  · cases htn : target_name (pyStr args.target_id) env.pageBefore.rects with
    | some n => exact ⟨"I scrolled '" ++ n ++ "' down.", by simp [performTool, htn]⟩
    | none => exact ⟨"I scrolled the control down.", by simp [performTool, htn]⟩
  · simp [performTool]
  · simp [performTool]
  · intro name hn
    simp only [knownToolNames, List.mem_cons, List.not_mem_nil, or_false] at hn
    push_neg at hn
    obtain ⟨h1, h2, h3, h4, h5, h6, h7, h8, h9, h10, h11⟩ := hn
    simp [performTool, h1, h2, h3, h4, h5, h6, h7, h8, h9, h10, h11]

/-- Witness for C4: the dispatch at a concrete environment, one instance with a
discharged hypothesis per kind (URL visit, click on an existing element, and an
out-of-table name). -/
theorem c4_dispatch_total_witness :
    performTool envC5 "visit_url" ⟨some "http://a b", none, none, none, none, none⟩ =
      Except.ok ("I typed 'http://a b' into the browser address bar.",
        [Event.act (BrowserCall.goto "http://a b")]) ∧
    (∃ d, performTool envC5 "click" ⟨none, none, some "12", none, none, none⟩ =
      Except.ok (d, [Event.act (BrowserCall.clickElement "12")])) ∧
    performTool envC5 "quack" emptyArgs =
      Except.error (DispatchErr.valueError "Unknown tool 'quack'") := by
  refine ⟨?_, ?_, ?_⟩
  · exact (c4_dispatch_total envC5 ⟨some "http://a b", none, none, none, none, none⟩).1
      "http://a b" rfl
  · exact (c4_dispatch_total envC5 ⟨none, none, some "12", none, none, none⟩).2.2.2.2.2.1
      (by decide)
  · exact (c4_dispatch_total envC5 emptyArgs).2.2.2.2.2.2.2.2.2.2.2 "quack" (by decide)

/-- Case analysis of one dispatch: the dispatch either raises (and then the
selected tool was not a summarization tool), or succeeds with at most one
browser action among its events and with exactly one inner `client.create` call
when and only when a summarization tool was selected on a page whose truncated
markdown is non-empty. -/
theorem performTool_trace_spec (env : Env) (name : String) (args : Args) :
    (∃ e, performTool env name args = Except.error e ∧
      (name == "answer_question" || name == "summarize_page") = false) ∨
    (∃ r, performTool env name args = Except.ok r ∧
      r.2.countP isAct ≤ 1 ∧
      r.2.countP isCreate =
        (if ((name == "answer_question" || name == "summarize_page")
            && !(pyStrip (truncateBuffer env.countToken 100000 env.pageBefore.markdown) == ""))
         then 1 else 0)) := by
  by_cases h1 : name = "visit_url"
  · subst h1
    cases hu : args.url with
    | none =>
        exact Or.inl ⟨DispatchErr.py PyErr.attributeError, by simp [performTool, hu], by decide⟩
    | some u =>
        exact Or.inr ⟨("I typed '" ++ u ++ "' into the browser address bar.",
          [Event.act (BrowserCall.goto (resolveVisitUrl u))]),
          by simp [performTool, hu], by simp [isAct], by simp [isCreate]⟩
  by_cases h2 : name = "history_back"
  · subst h2
    exact Or.inr ⟨("I clicked the browser back button.", [Event.act BrowserCall.goBack]),
      by simp [performTool], by simp [isAct], by simp [isCreate]⟩
  by_cases h3 : name = "web_search"
  · subst h3
    cases hq : args.query with
    | none =>
        exact Or.inl ⟨DispatchErr.py PyErr.typeError, by simp [performTool, hq], by decide⟩
    | some q =>
        exact Or.inr ⟨("I typed '" ++ q ++ "' into the browser search bar.",
          [Event.act (BrowserCall.goto (bingSearch q))]),
          by simp [performTool, hq], by simp [isAct], by simp [isCreate]⟩
  by_cases h4 : name = "page_up"
  · subst h4
    exact Or.inr ⟨("I scrolled up one page in the browser.",
      [Event.act (BrowserCall.scrollBy (-((VIEWPORT_HEIGHT : Int) - 50)))]),
      by simp [performTool], by simp [isAct], by simp [isCreate]⟩
  by_cases h5 : name = "page_down"
  · subst h5
    exact Or.inr ⟨("I scrolled down one page in the browser.",
      [Event.act (BrowserCall.scrollBy ((VIEWPORT_HEIGHT : Int) - 50))]),
      by simp [performTool], by simp [isAct], by simp [isCreate]⟩
  by_cases h6 : name = "click"
  · subst h6
    cases hc : env.pageBefore.elements.contains (pyStr args.target_id) with
    | false =>
        have hmem : ¬ (pyStr args.target_id ∈ env.pageBefore.elements) := by simpa using hc
        exact Or.inl ⟨DispatchErr.valueError "No such element.",
          by simp [performTool, click_id, hmem], by decide⟩
    | true =>
        have hmem : pyStr args.target_id ∈ env.pageBefore.elements := by simpa using hc
        cases htn : target_name (pyStr args.target_id) env.pageBefore.rects with
        | some n =>
            exact Or.inr ⟨("I clicked '" ++ n ++ "'.",
              [Event.act (BrowserCall.clickElement (pyStr args.target_id))]),
              by simp [performTool, click_id, hmem, htn], by simp [isAct], by simp [isCreate]⟩
        | none =>
            exact Or.inr ⟨("I clicked the control.",
              [Event.act (BrowserCall.clickElement (pyStr args.target_id))]),
              by simp [performTool, click_id, hmem, htn], by simp [isAct], by simp [isCreate]⟩
  by_cases h7 : name = "input_text"
  · subst h7
    cases hc : env.pageBefore.elements.contains (pyStr args.input_field_id) with
    | false =>
        have hmem : ¬ (pyStr args.input_field_id ∈ env.pageBefore.elements) := by simpa using hc
        exact Or.inl ⟨DispatchErr.valueError "No such element.",
          by simp [performTool, fill_id, hmem], by decide⟩
    | true =>
        have hmem : pyStr args.input_field_id ∈ env.pageBefore.elements := by simpa using hc
        cases htn : target_name (pyStr args.input_field_id) env.pageBefore.rects with
        | some n =>
            exact Or.inr ⟨("I typed '" ++ pyStr args.text_value ++ "' into '" ++ n ++ "'.",
              [Event.act (BrowserCall.fillElement (pyStr args.input_field_id)
                (pyStr args.text_value))]),
              by simp [performTool, fill_id, hmem, htn], by simp [isAct], by simp [isCreate]⟩
        | none =>
            exact Or.inr ⟨("I input '" ++ pyStr args.text_value ++ "'.",
              [Event.act (BrowserCall.fillElement (pyStr args.input_field_id)
                (pyStr args.text_value))]),
              by simp [performTool, fill_id, hmem, htn], by simp [isAct], by simp [isCreate]⟩
  by_cases h8 : name = "scroll_element_up"
  · subst h8
    cases htn : target_name (pyStr args.target_id) env.pageBefore.rects with
    | some n =>
        exact Or.inr ⟨("I scrolled '" ++ n ++ "' up.",
          [Event.act (BrowserCall.scrollElement (pyStr args.target_id) ScrollDir.up)]),
          by simp [performTool, htn], by simp [isAct], by simp [isCreate]⟩
    | none =>
        exact Or.inr ⟨("I scrolled the control up.",
          [Event.act (BrowserCall.scrollElement (pyStr args.target_id) ScrollDir.up)]),
          by simp [performTool, htn], by simp [isAct], by simp [isCreate]⟩
  by_cases h9 : name = "scroll_element_down"
  · subst h9
    cases htn : target_name (pyStr args.target_id) env.pageBefore.rects with
    | some n =>
        exact Or.inr ⟨("I scrolled '" ++ n ++ "' down.",
          [Event.act (BrowserCall.scrollElement (pyStr args.target_id) ScrollDir.down)]),
          by simp [performTool, htn], by simp [isAct], by simp [isCreate]⟩
    | none =>
        exact Or.inr ⟨("I scrolled the control down.",
          [Event.act (BrowserCall.scrollElement (pyStr args.target_id) ScrollDir.down)]),
          by simp [performTool, htn], by simp [isAct], by simp [isCreate]⟩
  by_cases h10 : name = "answer_question"
  · subst h10
    cases hb : pyStrip (truncateBuffer env.countToken 100000 env.pageBefore.markdown) == "" with
    | true =>
        exact Or.inr ⟨("Nothing to summarize.", [Event.getMarkdown]),
          by simp [performTool, summarize_page_fn, hb], by simp [isAct], by simp [isCreate, hb]⟩
    | false =>
        exact Or.inr ⟨(env.summaryText,
          [Event.getMarkdown, Event.screenshot env.pageBefore.shot, Event.createCall none]),
          by simp [performTool, summarize_page_fn, hb], by simp [isAct],
          by simp [isCreate, hb]⟩
  by_cases h11 : name = "summarize_page"
  · subst h11
    cases hb : pyStrip (truncateBuffer env.countToken 100000 env.pageBefore.markdown) == "" with
    | true =>
        exact Or.inr ⟨("Nothing to summarize.", [Event.getMarkdown]),
          by simp [performTool, summarize_page_fn, hb], by simp [isAct], by simp [isCreate, hb]⟩
    | false =>
        exact Or.inr ⟨(env.summaryText,
          [Event.getMarkdown, Event.screenshot env.pageBefore.shot, Event.createCall none]),
          by simp [performTool, summarize_page_fn, hb], by simp [isAct],
          by simp [isCreate, hb]⟩
  exact Or.inl ⟨DispatchErr.valueError ("Unknown tool '" ++ name ++ "'"),
    by simp [performTool, h1, h2, h3, h4, h5, h6, h7, h8, h9, h10, h11],
    by simp [h10, h11]⟩


/-- C3: per turn at most one model-chosen action is executed — the turn's
outcome and trace depend only on the first entry of `message.tool_calls`
(tool calls after the first are never dispatched), and every trace contains at
most one browser action. -/
theorem c3_first_tool_call_only :
    (∀ (env : Env) (tc : ToolCall) (rest : List ToolCall),
      generate_surfer_reply { env with response := { env.response with tool_calls := tc :: rest } } =
      generate_surfer_reply { env with response := { env.response with tool_calls := [tc] } }) ∧
    (∀ env : Env, ((generate_surfer_reply env).2.countP isAct) ≤ 1) := by
  constructor
  · intro env tc rest
    rfl
  · intro env
    unfold generate_surfer_reply
    split
    · simp [preTrace, finishTrace, isAct]
    · split
      · simp [preTrace, isAct]
      · rename_i x1 tc htc x2 args harg
        rcases performTool_trace_spec env tc.name args with ⟨e, hp, -⟩ | ⟨r, hp, hact, -⟩
        · rw [hp]
          cases e with
          | valueError m => simp [preTrace, isAct]
          | py e2 => simp [preTrace, isAct]
        · obtain ⟨desc, evs⟩ := r
          rw [hp]
          simp only at hact
          simp [preTrace, finishTrace, isAct, List.countP_append]
          simpa [isAct] using hact

/-- C1 (amended): the outer `client.create` call happens exactly once per turn,
and a second, inner `client.create` call (from `_summarize_page`) happens in the
same turn exactly when the selected tool is `answer_question` or
`summarize_page` and the truncated page markdown is non-empty — so the per-turn
total of `client.create` invocations is 2 in that case and 1 in every other
case. -/
theorem c1_create_call_count (env : Env) :
    ((generate_surfer_reply env).2.countP isCreate) = if summarizeToolSelected env then 2 else 1 := by
  unfold generate_surfer_reply
  split
  · rename_i x0 htc
    have hs : summarizeToolSelected env = false := by
      simp only [summarizeToolSelected, htc]
    rw [hs]
    simp [preTrace, finishTrace, isCreate]
  · split
    · rename_i x1 tc htc x2 m harg
      have hs : summarizeToolSelected env = false := by
        simp only [summarizeToolSelected, htc, harg]
      rw [hs]
      simp [preTrace, isCreate]
    · rename_i x1 tc htc x2 args harg
      have hs : summarizeToolSelected env =
          ((tc.name == "answer_question" || tc.name == "summarize_page")
            && !(pyStrip (truncateBuffer env.countToken 100000 env.pageBefore.markdown) == "")) := by
        simp only [summarizeToolSelected, htc, harg]
      rcases performTool_trace_spec env tc.name args with ⟨e, hp, hname⟩ | ⟨r, hp, -, hcreate⟩
      · rw [hp, hs, hname]
        cases e with
        | valueError m => simp [preTrace, isCreate]
        | py e2 => simp [preTrace, isCreate]
      · obtain ⟨desc, evs⟩ := r
        rw [hp, hs]
        simp only at hcreate
        cases hC : ((tc.name == "answer_question" || tc.name == "summarize_page")
            && !(pyStrip (truncateBuffer env.countToken 100000 env.pageBefore.markdown) == "")) with
        | true =>
            rw [hC] at hcreate
            simp [preTrace, finishTrace, isCreate, List.countP_append, hcreate]
        | false =>
            rw [hC] at hcreate
            simp [preTrace, finishTrace, isCreate, List.countP_append, hcreate]

/-- C1 counterexample: on a concrete turn in which the model selects
`summarize_page` on a page with non-empty markdown, `client.create` is invoked
twice (once before the dispatch and once inside `_summarize_page`), not once. -/
theorem c1_counterexample : ((generate_surfer_reply envC1).2.countP isCreate) ≠ 1 := by
  decide

/-- C5: when the first tool call parses and its dispatch succeeds, the turn is
exactly the sequence: read the page state and take the set-of-mark screenshot,
build the prompt, call the model, execute the dispatched browser events `evs`,
wait for the load state, re-read the viewport, take the screenshot of the
resulting page, and return the multimodal reply embedding that final
screenshot — which is the post-action page's screenshot, taken after the action
executed. -/
theorem c5_sequential_order (env : Env) (tc : ToolCall) (args : Args) (desc : String)
    (evs : List Event)
    (htc : env.response.tool_calls.head? = some tc)
    (hargs : tc.arguments = Except.ok args)
    (hperf : performTool env tc.name args = Except.ok (desc, evs)) :
    generate_surfer_reply env =
      (Except.ok (true, Reply.mm (finalText env env.response.content desc) env.pageAfter.shot),
       [Event.jsRects, Event.jsViewport, Event.screenshot env.pageBefore.shot, Event.jsFocused,
        Event.createCall (some (availableTools env.allowBing env.pageBefore.viewport
          env.hasScrollable))]
       ++ evs
       ++ [Event.waitLoad, Event.jsViewport, Event.screenshot env.pageAfter.shot]) := by
  unfold generate_surfer_reply
  rw [htc]
  show (match tc.arguments with
    | Except.error m => (Except.ok (true, Reply.text m), preTrace env)
    | Except.ok args =>
      match performTool env tc.name args with
      | Except.error (DispatchErr.valueError m) => (Except.ok (true, Reply.text m), preTrace env)
      | Except.error (DispatchErr.py e) => (Except.error e, preTrace env)
      | Except.ok (desc, evs) =>
        (Except.ok (true, Reply.mm (finalText env env.response.content desc) env.pageAfter.shot),
         preTrace env ++ evs ++ finishTrace env)) = _
  rw [hargs]
  simp only [hperf]
  rfl

/-- Witness for C5: the full turn at a concrete environment in which the model
clicks element "12"; the reply embeds screenshot 1, the post-action page's
screenshot, taken after the click. -/
theorem c5_sequential_order_witness :
    generate_surfer_reply envC5 =
      (Except.ok (true, Reply.mm
        ("ok I clicked 'Search'. Here is a screenshot of [u](https://y/). The viewport shows "
          ++ "50% of the webpage, and is positioned 5% down from the top of the page.") 1),
       [Event.jsRects, Event.jsViewport, Event.screenshot 0, Event.jsFocused,
        Event.createCall (some [ToolName.visit_url, ToolName.history_back, ToolName.click,
          ToolName.input_text, ToolName.summarize_page, ToolName.answer_question,
          ToolName.web_search]),
        Event.act (BrowserCall.clickElement "12"),
        Event.waitLoad, Event.jsViewport, Event.screenshot 1]) := by
  have h := c5_sequential_order envC5 ⟨"click", Except.ok ⟨none, none, some "12", none, none, none⟩⟩
    ⟨none, none, some "12", none, none, none⟩ "I clicked 'Search'."
    [Event.act (BrowserCall.clickElement "12")] rfl rfl (by decide)
  exact h

/-- Correspondence between the dispatch and its caught-`ValueError` condition:
a dispatch either raises a `ValueError` whose message `dispatchValueError`
predicts, or raises an uncaught exception, or succeeds — the latter two exactly
when `dispatchValueError` is `none`. -/
theorem performTool_outcome (env : Env) (name : String) (args : Args) :
    (∃ m, performTool env name args = Except.error (DispatchErr.valueError m) ∧
      dispatchValueError env name args = some m) ∨
    (∃ e, performTool env name args = Except.error (DispatchErr.py e) ∧
      dispatchValueError env name args = none) ∨
    (∃ r, performTool env name args = Except.ok r ∧
      dispatchValueError env name args = none) := by
  by_cases h1 : name = "visit_url"
  · subst h1
    cases hu : args.url with
    | none =>
        exact Or.inr (Or.inl ⟨PyErr.attributeError, by simp [performTool, hu],
          by simp [dispatchValueError, knownToolNames]⟩)
    | some u =>
        exact Or.inr (Or.inr ⟨_, by simp only [performTool]; rw [hu]; exact rfl,
          by simp [dispatchValueError, knownToolNames]⟩)
  by_cases h2 : name = "history_back"
  · subst h2
    exact Or.inr (Or.inr ⟨_, by simp [performTool]; rfl,
      by simp [dispatchValueError, knownToolNames]⟩)
  by_cases h3 : name = "web_search"
  · subst h3
    cases hq : args.query with
    | none =>
        exact Or.inr (Or.inl ⟨PyErr.typeError, by simp [performTool, hq],
          by simp [dispatchValueError, knownToolNames]⟩)
    | some q =>
        exact Or.inr (Or.inr ⟨_, by simp only [performTool]; rw [hq]; exact rfl,
          by simp [dispatchValueError, knownToolNames]⟩)
  by_cases h4 : name = "page_up"
  · subst h4
    exact Or.inr (Or.inr ⟨_, by simp [performTool]; rfl,
      by simp [dispatchValueError, knownToolNames]⟩)
  by_cases h5 : name = "page_down"
  · subst h5
    exact Or.inr (Or.inr ⟨_, by simp [performTool]; rfl,
      by simp [dispatchValueError, knownToolNames]⟩)
  by_cases h6 : name = "click"
  · subst h6
    cases hc : env.pageBefore.elements.contains (pyStr args.target_id) with
    | false =>
        have hmem : ¬ (pyStr args.target_id ∈ env.pageBefore.elements) := by simpa using hc
        exact Or.inl ⟨"No such element.", by simp [performTool, click_id, hmem],
          by simp [dispatchValueError, hmem]⟩
    | true =>
        have hmem : pyStr args.target_id ∈ env.pageBefore.elements := by simpa using hc
        exact Or.inr (Or.inr ⟨_, by simp [performTool, click_id, hmem]; rfl,
          by simp [dispatchValueError, hmem, knownToolNames]⟩)
  by_cases h7 : name = "input_text"
  · subst h7
    cases hc : env.pageBefore.elements.contains (pyStr args.input_field_id) with
    | false =>
        have hmem : ¬ (pyStr args.input_field_id ∈ env.pageBefore.elements) := by simpa using hc
        exact Or.inl ⟨"No such element.", by simp [performTool, fill_id, hmem],
          by simp [dispatchValueError, hmem]⟩
    | true =>
        have hmem : pyStr args.input_field_id ∈ env.pageBefore.elements := by simpa using hc
        exact Or.inr (Or.inr ⟨_, by simp [performTool, fill_id, hmem]; rfl,
          by simp [dispatchValueError, hmem, knownToolNames]⟩)
  by_cases h8 : name = "scroll_element_up"
  · subst h8
    exact Or.inr (Or.inr ⟨_, by simp [performTool]; rfl,
      by simp [dispatchValueError, knownToolNames]⟩)
  by_cases h9 : name = "scroll_element_down"
  · subst h9
    exact Or.inr (Or.inr ⟨_, by simp [performTool]; rfl,
      by simp [dispatchValueError, knownToolNames]⟩)
  by_cases h10 : name = "answer_question"
  · subst h10
    exact Or.inr (Or.inr ⟨_, by simp [performTool]; rfl,
      by simp [dispatchValueError, knownToolNames]⟩)
  by_cases h11 : name = "summarize_page"
  · subst h11
    exact Or.inr (Or.inr ⟨_, by simp [performTool]; rfl,
      by simp [dispatchValueError, knownToolNames]⟩)
  exact Or.inl ⟨"Unknown tool '" ++ name ++ "'",
    by simp [performTool, h1, h2, h3, h4, h5, h6, h7, h8, h9, h10, h11],
    by simp [dispatchValueError, knownToolNames, h1, h2, h3, h4, h5, h6, h7, h8, h9, h10, h11]⟩

/-- A turn either returns the caught `ValueError` predicted by
`valueErrorOutcome` with the pre-dispatch trace, or (`valueErrorOutcome` being
`none`) ends in an uncaught exception with the pre-dispatch trace, or returns a
multimodal reply. -/
theorem gen_value_error_split (env : Env) :
    (∃ m, valueErrorOutcome env = some m ∧
      generate_surfer_reply env = (Except.ok (true, Reply.text m), preTrace env)) ∨
    (valueErrorOutcome env = none ∧
      ((∃ e, (generate_surfer_reply env).1 = Except.error e ∧
        (generate_surfer_reply env).2 = preTrace env) ∨
       (∃ c shot, (generate_surfer_reply env).1 = Except.ok (true, Reply.mm c shot)))) := by
  unfold generate_surfer_reply valueErrorOutcome
  split
  · exact Or.inr ⟨rfl, Or.inr ⟨_, _, rfl⟩⟩
  · split
    · rename_i x1 tc htc x2 m harg
      exact Or.inl ⟨m, rfl, rfl⟩
    · rename_i x1 tc htc x2 args harg
      rcases performTool_outcome env tc.name args with ⟨m, hp, ho⟩ | ⟨e, hp, ho⟩ | ⟨r, hp, ho⟩
      · rw [hp, ho]
        exact Or.inl ⟨m, rfl, rfl⟩
      · rw [hp, ho]
        exact Or.inr ⟨rfl, Or.inl ⟨e, rfl, rfl⟩⟩
      · obtain ⟨desc, evs⟩ := r
        rw [hp, ho]
        exact Or.inr ⟨rfl, Or.inr ⟨_, _, rfl⟩⟩

/-- C9 (amended): `generate_surfer_reply` returns the pair `(True, str(e))` of a
caught `ValueError` exactly when the first tool call's arguments string fails
JSON parsing (a `json.JSONDecodeError` is a `ValueError`), or `click`/
`input_text` target an element id absent from the page, or the tool name is
outside the dispatch table; in every such case the trace is the pre-dispatch
trace, which performs no browser action. -/
theorem c9_value_error_paths (env : Env) (m : String) :
    ((generate_surfer_reply env).1 = Except.ok (true, Reply.text m) ↔
      valueErrorOutcome env = some m) ∧
    (valueErrorOutcome env = some m →
      (generate_surfer_reply env).2 = preTrace env ∧
      (generate_surfer_reply env).2.countP isAct = 0) := by
  rcases gen_value_error_split env with ⟨m2, ho, hg⟩ | ⟨ho, hrest⟩
  · constructor
    · rw [hg, ho]
      simp
    · intro hsome
      rw [ho] at hsome
      injection hsome with hm
      subst hm
      rw [hg]
      exact ⟨rfl, by simp [preTrace, isAct]⟩
  · constructor
    · rw [ho]
      constructor
      · intro h
        rcases hrest with ⟨e, h1, -⟩ | ⟨c, shot, h1⟩
        · rw [h1] at h
          exact absurd h (by simp)
        · rw [h1] at h
          simp at h
      · intro h
        exact absurd h (by simp)
    · intro hsome
      rw [ho] at hsome
      exact absurd hsome (by simp)

/-- Witness for C9 at a concrete turn whose tool name is outside the dispatch
table: the ValueError message is returned and the trace stops before any
browser action. -/
theorem c9_value_error_paths_witness :
    valueErrorOutcome envC9w = some "Unknown tool 'frobnicate'" ∧
    (generate_surfer_reply envC9w).2 = preTrace envC9w ∧
    (generate_surfer_reply envC9w).2.countP isAct = 0 := by
  have h := (c9_value_error_paths envC9w "Unknown tool 'frobnicate'").2 (by decide)
  exact ⟨by decide, h.1, h.2⟩

/-- C9 counterexample: on a concrete turn whose first tool call names `click`
(a name in the dispatch table) but whose arguments string is malformed JSON,
`generate_surfer_reply` still returns a caught ValueError — here the
`json.JSONDecodeError` message — so missing elements and unknown tool names are
not the only sources of the caught `ValueError`. -/
theorem c9_counterexample :
    (generate_surfer_reply envC9).1 =
      Except.ok (true, Reply.text "Expecting value: line 1 column 1 (char 0)") ∧
    envC9.response.tool_calls.head?.map ToolCall.name = some "click" ∧
    knownToolNames.contains "click" = true := by
  decide

/-- The truncation loop keeps a prefix of the split pieces: the result extends
the initial buffer with the joined first `k` pieces, every accepted step passed
the headroom check, and the loop either consumed all pieces or stopped at the
first piece failing the check. -/
theorem truncAux_join (ct : String → Nat) (lim : Nat) :
    ∀ (ls : List String) (buf : String),
    ∃ k, k ≤ ls.length ∧
      truncAux ct lim buf ls = buf ++ strJoin (ls.take k) ∧
      (∀ j, j < k → ct (buf ++ strJoin (ls.take (j + 1))) + 1024 ≤ lim) ∧
      (k = ls.length ∨ ct (buf ++ strJoin (ls.take (k + 1))) + 1024 > lim) := by
  intro ls
  induction ls with
  | nil =>
      intro buf
      exact ⟨0, by simp, by simp [truncAux, strJoin], by simp, Or.inl rfl⟩
  | cons l rest ih =>
      intro buf
      by_cases hc : ct (buf ++ l) + 1024 > lim
      · refine ⟨0, by simp, ?_, by simp, Or.inr ?_⟩
        · simp [truncAux, hc, strJoin]
        · simpa [strJoin] using hc
      · obtain ⟨k, hkle, heq, hall, hlast⟩ := ih (buf ++ l)
        refine ⟨k + 1, by simpa using hkle, ?_, ?_, ?_⟩
        · simp only [truncAux]
          rw [if_neg hc, heq]
          simp [strJoin, String.append_assoc]
        · intro j hj
          cases j with
          | zero =>
              simp only [List.take_succ_cons, List.take_zero, strJoin, String.append_empty]
              omega
          | succ j2 =>
              have h2 := hall j2 (by omega)
              simpa [strJoin, String.append_assoc] using h2
        · cases hlast with
          | inl h => exact Or.inl (by simp [h])
          | inr h => exact Or.inr (by simpa [strJoin, String.append_assoc] using h)

/-- Invariant of the truncation loop: if the incoming buffer is empty or fits
with 1024 tokens of headroom, so does the outgoing buffer. -/
theorem truncAux_headroom (ct : String → Nat) (lim : Nat) :
    ∀ (ls : List String) (buf : String),
    (buf = "" ∨ ct buf + 1024 ≤ lim) →
    (truncAux ct lim buf ls = "" ∨ ct (truncAux ct lim buf ls) + 1024 ≤ lim) := by
  intro ls
  induction ls with
  | nil =>
      intro buf h
      simpa [truncAux] using h
  | cons l rest ih =>
      intro buf h
      by_cases hc : ct (buf ++ l) + 1024 > lim
      · simpa [truncAux, hc] using h
      · have hle : ct (buf ++ l) + 1024 ≤ lim := by omega
        have h2 := ih (buf ++ l) (Or.inr hle)
        simpa [truncAux, hc] using h2

/-- C10: `_summarize_page` accumulates the `re.split` pieces of the page
markdown in order and stops before the first piece whose inclusion would push
`count_token(buffer) + 1024` over the token limit; consequently whenever the
stripped buffer is non-empty the text kept for the model leaves at least 1024
tokens of headroom; and when the stripped buffer is empty the function returns
"Nothing to summarize." with no model call (its events are only the markdown
read). -/
theorem c10_summarize_truncation (ct : String → Nat) (lim : Nat) (md : String) :
    (∃ k, truncateBuffer ct lim md = strJoin ((pySplitNl md).take k) ∧
      (∀ j, j < k → ct (strJoin ((pySplitNl md).take (j + 1))) + 1024 ≤ lim) ∧
      (k = (pySplitNl md).length ∨
        ct (strJoin ((pySplitNl md).take (k + 1))) + 1024 > lim)) ∧
    (pyStrip (truncateBuffer ct lim md) ≠ "" →
      ct (truncateBuffer ct lim md) + 1024 ≤ lim) ∧
    (∀ (page : Page) (q : Option String) (st : String),
      pyStrip (truncateBuffer ct lim page.markdown) = "" →
      summarize_page_fn ct lim page q st = ("Nothing to summarize.", [Event.getMarkdown])) := by
  refine ⟨?_, ?_, ?_⟩
  · obtain ⟨k, hkle, heq, hall, hlast⟩ := truncAux_join ct lim (pySplitNl md) ""
    refine ⟨k, ?_, ?_, ?_⟩
    · simpa [truncateBuffer] using heq
    · intro j hj
      simpa using hall j hj
    · simpa using hlast
  · intro hne
    rcases truncAux_headroom ct lim (pySplitNl md) "" (Or.inl rfl) with h | h
    · exact absurd (show pyStrip (truncateBuffer ct lim md) = "" by
        rw [show truncateBuffer ct lim md = "" from h]; rfl) hne
    · exact h
  · intro page q st hempty
    simp [summarize_page_fn, hempty]

/-- Witness for C10: with `count_token` instantiated to `String.length` and a
2000-token limit, the page text "hi" survives truncation whole and leaves 1024
tokens of headroom. -/
theorem c10_summarize_truncation_witness :
    pyStrip (truncateBuffer String.length 2000 "hi") ≠ "" ∧
    String.length (truncateBuffer String.length 2000 "hi") + 1024 ≤ 2000 := by
  refine ⟨by decide, ?_⟩
  exact (c10_summarize_truncation String.length 2000 "hi").2.1 (by decide)

/-- Witness for C2 at a concrete turn state: with Bing allowed, a scrolled-down
viewport and scrollable elements, all eleven tools are offered. -/
theorem c2_tool_availability_witness :
    ToolName.visit_url ∈ availableTools true ⟨10, 100, 300⟩ true ∧
    (ToolName.web_search ∈ availableTools true ⟨10, 100, 300⟩ true ↔ true = true) := by
  have h := c2_tool_availability true ⟨10, 100, 300⟩ true
  exact ⟨h.1, h.2.2.2.2.2.2.1⟩
